import Mathlib

/-!
Shallow embedding of the `smart-pointer` library (crate `ptr`):
`Cell` (the spec's ValueCell, src/cell.rs), `RefCell` (the spec's
BorrowCell, src/refcell.rs) with its borrow-state machine and guard
drops, and the `RcBox` record of src/rc.rs.

Interior mutability is modelled by explicit state passing: an operation
on a cell takes the cell value and returns the result together with the
cell as it stands after the call.  Rust panics and the `unreachable!`
arms of the guard destructors are modelled as `none` / a dedicated
`PanicOr.panic` constructor carrying the panic message.
-/

namespace SmartPtr

/-- The borrow state of a `RefCell` (src/refcell.rs, enum `Borrow`):
shared with a reference count, unshared (the spec's Idle), or exclusive. -/
inductive Borrow : Type where
  | Shared (n : Nat)
  | UnShared
  | Exclusive
deriving DecidableEq, Repr

/-- A value cell (src/cell.rs, `Cell<T>`): a single interior-mutable slot. -/
structure Cell (α : Type) where
  value : α
deriving DecidableEq, Repr

/-- Creates a new `Cell` containing the given value (src/cell.rs, `Cell::new`). -/
def Cell.new (v : α) : Cell α := ⟨v⟩

/-- Returns a copy of the contained value (src/cell.rs, `Cell::get`). -/
def Cell.get (c : Cell α) : α := c.value

/-- Replaces the contained value and returns the old one
(src/cell.rs, `Cell::replace`): the pair is (old value, cell afterwards). -/
def Cell.replace (c : Cell α) (v : α) : α × Cell α := (c.value, ⟨v⟩)

/-- Sets the contained value (src/cell.rs, `Cell::set`): calls `replace`
and drops the returned old value, keeping only the updated cell. -/
def Cell.set (c : Cell α) (v : α) : Cell α := (c.replace v).2

/-- Unwraps the value (src/cell.rs, `Cell::into_inner`). -/
def Cell.into_inner (c : Cell α) : α := c.value

/-- Swaps the values of two `Cell`s addressed by indices into a heap of
cells (src/cell.rs, `Cell::swap`).  Pointer equality of the two handles
is index equality; the source checks `std::ptr::eq(self, other)` and
returns early, otherwise it swaps the two storage slots with
`std::ptr::swap`.  Indices outside the heap do not correspond to any
real handle and leave the heap unchanged. -/
def Cell.swap (store : List (Cell α)) (i j : Nat) : List (Cell α) :=
  if i = j then store
  else
    match store[i]?, store[j]? with
    | some ci, some cj => (store.set i cj).set j ci
    | _, _ => store

/-- The two error values of src/refcell.rs: the unit structs
`BorrowError` (returned by `try_borrow`) and `BorrowMutError`. -/
inductive BorrowErrValue : Type where
  | BorrowError
  | BorrowMutError
deriving DecidableEq, Repr

/-- The `Display` output of each error value (src/refcell.rs,
`impl Display for BorrowError` and `impl Display for BorrowMutError`). -/
def BorrowErrValue.display : BorrowErrValue → String
  | .BorrowError => "already mutably borrowed"
  | .BorrowMutError => "already borrowed"

/-- Outcome of an operation that can panic: either a normal result or a
panic carrying the formatted message. -/
inductive PanicOr (α : Type) : Type where
  | panic (msg : String)
  | ok (a : α)
deriving DecidableEq, Repr

/-- A borrow-tracked cell (src/refcell.rs, `RefCell<T>`): the protected
value and the borrow state held in a `Cell`. -/
structure RefCell (α : Type) where
  value : α
  state : Cell Borrow
deriving DecidableEq, Repr

/-- Creates a new `RefCell` containing `value`, state `UnShared`
(src/refcell.rs, `RefCell::new`). -/
def RefCell.new (v : α) : RefCell α := ⟨v, Cell.new .UnShared⟩

/-- Checked shared borrow (src/refcell.rs, `RefCell::try_borrow`).
The first component is `Ok` with the guard (a back-reference, modelled
as `Unit`) or `Err` with the error value; the second component is the
cell as it stands after the call.  `UnShared` becomes `Shared 1`,
`Shared n` becomes `Shared (n+1)`, and `Exclusive` yields
`Err(BorrowError)` leaving the cell untouched. -/
def RefCell.try_borrow (c : RefCell α) : Except BorrowErrValue Unit × RefCell α :=
  match c.state.get with
  | .UnShared => (.ok (), { c with state := c.state.set (.Shared 1) })
  | .Shared n => (.ok (), { c with state := c.state.set (.Shared (n + 1)) })
  | .Exclusive => (.error .BorrowError, c)

/-- Checked exclusive borrow (src/refcell.rs, `RefCell::try_borrow_mut`).
`Exclusive` and `Shared _` yield `Err(BorrowError)` — note the source's
error type here is `BorrowError`, not `BorrowMutError` — leaving the
cell untouched; `UnShared` becomes `Exclusive`. -/
def RefCell.try_borrow_mut (c : RefCell α) : Except BorrowErrValue Unit × RefCell α :=
  match c.state.get with
  | .Exclusive => (.error .BorrowError, c)
  | .Shared _ => (.error .BorrowError, c)
  | .UnShared => (.ok (), { c with state := c.state.set .Exclusive })

/-- Panicking shared borrow (src/refcell.rs, `RefCell::borrow`):
`try_borrow` unwrapped with `panic!("{}", BorrowError)`. -/
def RefCell.borrow (c : RefCell α) : PanicOr Unit × RefCell α :=
  match c.try_borrow with
  | (.ok u, c') => (.ok u, c')
  | (.error _, c') => (.panic BorrowErrValue.BorrowError.display, c')

/-- Panicking exclusive borrow (src/refcell.rs, `RefCell::borrow_mut`):
`try_borrow_mut` unwrapped with `panic!("{}", BorrowMutError)` — the
closure ignores the error value and formats a fresh `BorrowMutError`. -/
def RefCell.borrow_mut (c : RefCell α) : PanicOr Unit × RefCell α :=
  match c.try_borrow_mut with
  | (.ok u, c') => (.ok u, c')
  | (.error _, c') => (.panic BorrowErrValue.BorrowMutError.display, c')

/-- Destructor of a shared guard (src/refcell.rs, `impl Drop for Ref`):
acts on the cell's borrow state; `Exclusive` and `UnShared` are the
source's `unreachable!` arms, modelled as `none`. -/
def Ref.drop : Borrow → Option Borrow
  | .Exclusive => none
  | .UnShared => none
  | .Shared 1 => some .UnShared
  | .Shared n => some (.Shared (n - 1))

/-- Destructor of an exclusive guard (src/refcell.rs,
`impl Drop for RefMut`): `UnShared` and `Shared _` are the source's
`unreachable!` arms, modelled as `none`. -/
def RefMut.drop : Borrow → Option Borrow
  | .UnShared => none
  | .Shared _ => none
  | .Exclusive => some .UnShared

/-- Swap of the wrapped values of two `RefCell`s addressed by indices
into a heap of cells (src/refcell.rs, `RefCell::swap`, the body
`std::mem::swap(&mut *self.borrow_mut(), &mut *other.borrow_mut())`).
Evaluation order of the source: exclusive-borrow `self` (panic on
`Err`), exclusive-borrow `other` (panic on `Err`), swap the two
payloads through the guards, then drop the two guard temporaries in
reverse creation order (`other`'s first).  `none` models a panic or an
`unreachable!` in a guard destructor; an index outside the heap
corresponds to no real handle and is also `none`. -/
def RefCell.swap (store : List (RefCell α)) (i j : Nat) :
    Option (List (RefCell α)) :=
  match store[i]? with
  | none => none
  | some ci =>
    match ci.try_borrow_mut with
    | (.error _, _) => none
    | (.ok _, ci') =>
      let store1 := store.set i ci'
      match store1[j]? with
      | none => none
      | some cj =>
        match cj.try_borrow_mut with
        | (.error _, _) => none
        | (.ok _, cj') =>
          let store2 := store1.set j cj'
          match store2[i]?, store2[j]? with
          | some di, some dj =>
            let store3 :=
              (store2.set i { di with value := dj.value }).set j
                { dj with value := di.value }
            match store3[j]? with
            | none => none
            | some ej =>
              match RefMut.drop ej.state.get with
              | none => none
              | some sj =>
                let store4 := store3.set j { ej with state := ej.state.set sj }
                match store4[i]? with
                | none => none
                | some ei =>
                  match RefMut.drop ei.state.get with
                  | none => none
                  | some si =>
                    some (store4.set i { ei with state := ei.state.set si })
          | _, _ => none

/-- Replaces the wrapped value with one computed from `f` and returns
the old value (src/refcell.rs, `RefCell::replace_with`).  The source
takes the exclusive borrow (panicking on failure), runs `f` on the
mutable borrow while the guard is live, replaces the payload with the
result, and the guard drops at the end of the call.  `f` is modelled
as receiving the cell as it stands during the call (its payload is the
mutable borrow's target; its state is what any re-entrant access
through another handle to the same cell would observe).  The first
component is the old value or the panic; the second is the cell after
the call. -/
def RefCell.replace_with (c : RefCell α) (f : RefCell α → α) :
    PanicOr α × RefCell α :=
  match c.try_borrow_mut with
  | (.error _, c') => (.panic BorrowErrValue.BorrowMutError.display, c')
  | (.ok _, cm) =>
    let newVal := f cm
    let old := cm.value
    let cm2 : RefCell α := { cm with value := newVal }
    match RefMut.drop cm2.state.get with
    | none => (.panic "internal error: entered unreachable code", cm2)
    | some s => (.ok old, { cm2 with state := cm2.state.set s })

/-- One observable event in the life of a single `RefCell`: a
successful shared borrow, a successful exclusive borrow, the drop of a
live shared guard, or the drop of a live exclusive guard. -/
inductive Ev : Type where
  | borrowOk
  | borrowMutOk
  | dropRef
  | dropRefMut
deriving DecidableEq, Repr

/-- A `RefCell` together with the number of live shared and exclusive
guards that borrow operations have handed out and not yet dropped. -/
structure Config (α : Type) where
  cell : RefCell α
  refs : Nat
  muts : Nat
deriving DecidableEq, Repr

/-- The configuration of a freshly constructed `RefCell`: no guard is
live and the state is `UnShared`. -/
def Config.init (v : α) : Config α := ⟨RefCell.new v, 0, 0⟩

/-- Executes one event: borrows follow `RefCell.try_borrow` /
`RefCell.try_borrow_mut` and count the guard they hand out; a drop
event requires a live guard of that kind and runs the corresponding
destructor (src/refcell.rs, `impl Drop for Ref` / `impl Drop for
RefMut`) on the state.  `none` when the event is not possible (a failed
borrow, a drop with no live guard, or an `unreachable!` arm). -/
def Config.step (k : Config α) : Ev → Option (Config α)
  | .borrowOk =>
    match k.cell.try_borrow with
    | (.ok _, c') => some ⟨c', k.refs + 1, k.muts⟩
    | (.error _, _) => none
  | .borrowMutOk =>
    match k.cell.try_borrow_mut with
    | (.ok _, c') => some ⟨c', k.refs, k.muts + 1⟩
    | (.error _, _) => none
  | .dropRef =>
    match k.refs, Ref.drop k.cell.state.get with
    | r + 1, some s => some ⟨{ k.cell with state := k.cell.state.set s }, r, k.muts⟩
    | _, _ => none
  | .dropRefMut =>
    match k.muts, RefMut.drop k.cell.state.get with
    | m + 1, some s => some ⟨{ k.cell with state := k.cell.state.set s }, k.refs, m⟩
    | _, _ => none

/-- Executes a sequence of events from a configuration. -/
def Config.run (k : Config α) : List Ev → Option (Config α)
  | [] => some k
  | e :: es =>
    match k.step e with
    | none => none
    | some k' => k'.run es

/-- The coupling between the borrow state and the live guard counts:
`UnShared` means no live guard, `Shared n` (with `n` positive) means
exactly `n` live shared guards and no exclusive one, `Exclusive` means
exactly one live exclusive guard and no shared one. -/
def Config.inv (k : Config α) : Prop :=
  (k.cell.state.get = .UnShared ∧ k.refs = 0 ∧ k.muts = 0) ∨
  (k.cell.state.get = .Shared k.refs ∧ 0 < k.refs ∧ k.muts = 0) ∨
  (k.cell.state.get = .Exclusive ∧ k.refs = 0 ∧ k.muts = 1)

/-- The heap record behind `Rc` and `Weak` (src/rc.rs, `RcBox<T>`):
strong count, weak count and the payload. -/
structure RcBox (α : Type) where
  strong : Cell Nat
  weak : Cell Nat
  value : α
deriving DecidableEq, Repr

/-- Modelled from the spec: the implementation of `Weak::upgrade` is
not present under src/ (src/rc.rs only declares the `RcBox`, `Rc` and
`Weak` structs).  Spec §4.3: "Read strong; if zero, return None.
Otherwise, increment strong and return a new strong handle."  The new
strong handle is a pointer to the same box, modelled as `some ()`; the
second component is the box after the call. -/
def Weak.upgrade (b : RcBox α) : Option Unit × RcBox α :=
  let n := b.strong.get
  if n = 0 then (none, b)
  else (some (), { b with strong := b.strong.set (n + 1) })

/-- A fresh configuration satisfies the state/guard coupling. -/
theorem Config.inv_init (v : α) : (Config.init v).inv :=
  Or.inl ⟨rfl, rfl, rfl⟩

/-- Every event preserves the state/guard coupling. -/
theorem Config.inv_step {k k' : Config α} {e : Ev} (hinv : k.inv)
    (h : k.step e = some k') : k'.inv := by
  obtain ⟨⟨v, ⟨s⟩⟩, refs, muts⟩ := k
  rcases hinv with ⟨hs, h1, h2⟩ | ⟨hs, h1, h2⟩ | ⟨hs, h1, h2⟩ <;>
    simp only [Cell.get] at hs h1 h2 <;> subst hs <;> cases e <;>
    simp only [Config.step, Config.inv, RefCell.try_borrow, RefCell.try_borrow_mut,
      Cell.get, Cell.set, Cell.replace, Ref.drop, RefMut.drop,
      reduceCtorEq, Option.some.injEq] at h h1 h2 <;>
    (try subst h1) <;> (try subst h2) <;>
    (try (rcases h with rfl; simp_all [Config.inv, Cell.get, Cell.set, Cell.replace])) <;>
    (try (cases h)) <;>
    (try (exact Or.inl ⟨rfl, rfl, rfl⟩))
  rcases refs with _ | _ | n
  · omega
  · simp only [Option.some.injEq] at h
    subst h
    exact Or.inl ⟨rfl, rfl, rfl⟩
  · simp only [Option.some.injEq] at h
    subst h
    exact Or.inr (Or.inl ⟨rfl, Nat.succ_pos n, rfl⟩)

/-- A run from a configuration satisfying the coupling ends in one. -/
theorem Config.inv_run {k k' : Config α} {evs : List Ev} (hinv : k.inv)
    (h : k.run evs = some k') : k'.inv := by
  induction evs generalizing k with
  | nil =>
    simp only [Config.run, Option.some.injEq] at h
    exact h ▸ hinv
  | cons e es ih =>
    unfold Config.run at h
    cases hstep : k.step e with
    | none => simp [hstep] at h
    | some k1 =>
      rw [hstep] at h
      exact ih (Config.inv_step hinv hstep) h

/-- C1: evaluation at the failing input.  On a `BorrowCell` whose state
is not Idle (here: `Exclusive`), `try_borrow_exclusive` returns an
error, but the error value is the `BorrowError` struct — whose display
is "already mutably borrowed" — and not `BorrowMutError` as the claim
(and the source's own doc comment on `BorrowMutError`) states. -/
theorem c1_try_borrow_mut_returns_borrow_error :
    ((⟨0, Cell.new Borrow.Exclusive⟩ : RefCell Nat).try_borrow_mut).1
        = Except.error BorrowErrValue.BorrowError ∧
    BorrowErrValue.BorrowError ≠ BorrowErrValue.BorrowMutError ∧
    BorrowErrValue.BorrowError.display = "already mutably borrowed" ∧
    BorrowErrValue.BorrowMutError.display = "already borrowed" :=
  ⟨rfl, by decide, rfl, rfl⟩

/-- C2: in every sequence of successful borrows and guard drops on a
`BorrowCell`, the state `Shared 0` is never observed; dropping the last
shared guard transitions the state to Idle (`UnShared`); and once all
guards (shared or exclusive) have dropped, the state is Idle. -/
theorem c2_shared_zero_never_observed (α : Type) (v : α) (evs : List Ev)
    (k : Config α) (h : Config.run (Config.init v) evs = some k) :
    k.cell.state.get ≠ Borrow.Shared 0 ∧
    (k.refs = 0 → k.muts = 0 → k.cell.state.get = Borrow.UnShared) ∧
    Ref.drop (Borrow.Shared 1) = some Borrow.UnShared := by
  have hinv := Config.inv_run (Config.inv_init v) h
  rcases hinv with ⟨hs, h1, h2⟩ | ⟨hs, h1, h2⟩ | ⟨hs, h1, h2⟩ <;>
    refine ⟨?_, ?_, rfl⟩ <;> simp_all [Cell.get] <;> omega

/-- Witness for C2 at a concrete trace: two shared borrows followed by
the two guard drops bring a fresh cell back to Idle with no guard
live. -/
theorem c2_witness :
    Config.run (Config.init (0 : Nat))
        [Ev.borrowOk, Ev.borrowOk, Ev.dropRef, Ev.dropRef]
      = some ⟨RefCell.new 0, 0, 0⟩ ∧
    (⟨RefCell.new (0 : Nat), 0, 0⟩ : Config Nat).cell.state.get
      = Borrow.UnShared :=
  ⟨by decide,
   (c2_shared_zero_never_observed Nat 0
      [Ev.borrowOk, Ev.borrowOk, Ev.dropRef, Ev.dropRef]
      ⟨RefCell.new 0, 0, 0⟩ (by decide)).2.1 rfl rfl⟩

/-- C3: `try_borrow` succeeds on Idle, transitioning to `Shared 1`, and
on `Shared n`, transitioning to `Shared (n+1)`; it returns an error of
kind `BorrowErr` (the `BorrowError` struct) exactly when the state is
`Exclusive`. -/
theorem c3_try_borrow_transitions (α : Type) (c : RefCell α) :
    (c.state.get = Borrow.UnShared →
      c.try_borrow
        = (Except.ok (), { c with state := c.state.set (Borrow.Shared 1) })) ∧
    (∀ n, c.state.get = Borrow.Shared n →
      c.try_borrow
        = (Except.ok (), { c with state := c.state.set (Borrow.Shared (n + 1)) })) ∧
    ((c.try_borrow).1 = Except.error BorrowErrValue.BorrowError ↔
      c.state.get = Borrow.Exclusive) := by
  obtain ⟨v, ⟨s⟩⟩ := c
  cases s <;> simp [RefCell.try_borrow, Cell.get, Cell.set, Cell.replace]

/-- Witness for C3: the Idle, Shared and Exclusive branches evaluated
on concrete cells. -/
theorem c3_witness :
    (⟨5, Cell.new Borrow.UnShared⟩ : RefCell Nat).try_borrow
      = (Except.ok (), ⟨5, Cell.new (Borrow.Shared 1)⟩) ∧
    (⟨5, Cell.new (Borrow.Shared 2)⟩ : RefCell Nat).try_borrow
      = (Except.ok (), ⟨5, Cell.new (Borrow.Shared 3)⟩) ∧
    ((⟨5, Cell.new Borrow.Exclusive⟩ : RefCell Nat).try_borrow).1
      = Except.error BorrowErrValue.BorrowError :=
  ⟨(c3_try_borrow_transitions Nat _).1 rfl,
   (c3_try_borrow_transitions Nat ⟨5, Cell.new (Borrow.Shared 2)⟩).2.1 2 rfl,
   (c3_try_borrow_transitions Nat _).2.2.mpr rfl⟩

/-- C4: spec-modelled upgrade semantics.  `upgrade` reads the strong
count; if it is zero it returns `none` and touches nothing; otherwise
it increments the strong count and returns a new strong handle,
leaving the weak count and the payload unchanged. -/
theorem c4_upgrade_semantics (α : Type) (b : RcBox α) :
    (b.strong.get = 0 → Weak.upgrade b = (none, b)) ∧
    (b.strong.get ≠ 0 →
      (Weak.upgrade b).1 = some () ∧
      (Weak.upgrade b).2.strong.get = b.strong.get + 1 ∧
      (Weak.upgrade b).2.weak = b.weak ∧
      (Weak.upgrade b).2.value = b.value) := by
  obtain ⟨⟨s⟩, w, v⟩ := b
  by_cases hs : s = 0 <;>
    simp [Weak.upgrade, Cell.get, Cell.set, Cell.replace, hs]

/-- Witness for C4: upgrade against a dead box (strong = 0) and a live
one (strong = 2). -/
theorem c4_witness :
    Weak.upgrade (⟨Cell.new 0, Cell.new 1, (7 : Nat)⟩ : RcBox Nat)
      = (none, ⟨Cell.new 0, Cell.new 1, 7⟩) ∧
    (Weak.upgrade (⟨Cell.new 2, Cell.new 1, (7 : Nat)⟩ : RcBox Nat)).1
      = some () ∧
    (Weak.upgrade (⟨Cell.new 2, Cell.new 1, (7 : Nat)⟩ : RcBox Nat)).2.strong.get
      = 3 :=
  ⟨(c4_upgrade_semantics Nat _).1 rfl,
   ((c4_upgrade_semantics Nat ⟨Cell.new 2, Cell.new 1, 7⟩).2 (by decide)).1,
   ((c4_upgrade_semantics Nat ⟨Cell.new 2, Cell.new 1, 7⟩).2 (by decide)).2.1⟩

/-- C5: the panicking borrow variants carry the taxonomy's fixed
strings: on a cell in state `Exclusive`, `borrow()` panics with
"already mutably borrowed"; on a cell whose state is not Idle,
`borrow_mut()` panics with "already borrowed". -/
theorem c5_panic_messages (α : Type) (c : RefCell α) :
    (c.state.get = Borrow.Exclusive →
      (c.borrow).1 = PanicOr.panic "already mutably borrowed") ∧
    (c.state.get ≠ Borrow.UnShared →
      (c.borrow_mut).1 = PanicOr.panic "already borrowed") := by
  obtain ⟨v, ⟨s⟩⟩ := c
  cases s <;>
    simp [RefCell.borrow, RefCell.borrow_mut, RefCell.try_borrow,
      RefCell.try_borrow_mut, Cell.get, Cell.set, Cell.replace,
      BorrowErrValue.display]

/-- Witness for C5: the two panic messages on concrete cells. -/
theorem c5_witness :
    ((⟨5, Cell.new Borrow.Exclusive⟩ : RefCell Nat).borrow).1
      = PanicOr.panic "already mutably borrowed" ∧
    ((⟨5, Cell.new (Borrow.Shared 1)⟩ : RefCell Nat).borrow_mut).1
      = PanicOr.panic "already borrowed" :=
  ⟨(c5_panic_messages Nat ⟨5, Cell.new Borrow.Exclusive⟩).1 rfl,
   (c5_panic_messages Nat ⟨5, Cell.new (Borrow.Shared 1)⟩).2 (by decide)⟩

/-- C8: after `set v`, both `get` and `into_inner` observe `v`, and
`set` is `replace v` keeping only the updated cell (the returned old
value is dropped). -/
theorem c8_set_then_observe (α : Type) (c : Cell α) (v : α) :
    (Cell.set c v).get = v ∧ (Cell.set c v).into_inner = v ∧
    Cell.set c v = (Cell.replace c v).2 :=
  ⟨rfl, rfl, rfl⟩

/-- C10: a failed borrow attempt has no side effect — whenever
`try_borrow` or `try_borrow_mut` returns an error, the cell (borrow
state and payload alike) is exactly as it was before the call. -/
theorem c10_failed_borrow_no_side_effect (α : Type) (c : RefCell α) :
    (∀ e, (c.try_borrow).1 = Except.error e → (c.try_borrow).2 = c) ∧
    (∀ e, (c.try_borrow_mut).1 = Except.error e → (c.try_borrow_mut).2 = c) := by
  obtain ⟨v, ⟨s⟩⟩ := c
  cases s <;>
    simp [RefCell.try_borrow, RefCell.try_borrow_mut, Cell.get, Cell.set,
      Cell.replace]

/-- Witness for C10: a failing shared borrow on an exclusively borrowed
cell and a failing exclusive borrow on a shared cell leave the cells
untouched. -/
theorem c10_witness :
    ((⟨5, Cell.new Borrow.Exclusive⟩ : RefCell Nat).try_borrow).2
      = ⟨5, Cell.new Borrow.Exclusive⟩ ∧
    ((⟨5, Cell.new (Borrow.Shared 1)⟩ : RefCell Nat).try_borrow_mut).2
      = ⟨5, Cell.new (Borrow.Shared 1)⟩ :=
  ⟨(c10_failed_borrow_no_side_effect Nat _).1 BorrowErrValue.BorrowError rfl,
   (c10_failed_borrow_no_side_effect Nat _).2 BorrowErrValue.BorrowError rfl⟩

/-- C6 counterexample: on a `BorrowCell` with state Idle, swapping the
cell with itself does not complete normally and is not a no-op — the
call panics (the source's `swap` has no pointer-equality check, so the
second `borrow_mut` finds the state already `Exclusive`). -/
theorem c6_cex_self_swap_is_not_noop :
    RefCell.swap [RefCell.new (0 : Nat)] 0 0 = none ∧
    RefCell.swap [RefCell.new (0 : Nat)] 0 0 ≠ some [RefCell.new (0 : Nat)] :=
  ⟨by decide, by decide⟩

/-- C6 (amended): swapping a `BorrowCell` with itself always panics
rather than completing: the first exclusive borrow either fails (the
cell is already borrowed) or leaves the cell `Exclusive`, so the second
exclusive borrow on the same cell fails. -/
theorem c6_self_swap_panics (α : Type) (store : List (RefCell α)) (i : Nat)
    (ci : RefCell α) (h : store[i]? = some ci) :
    RefCell.swap store i i = none := by
  have hi : i < store.length := (List.getElem?_eq_some.mp h).1
  unfold RefCell.swap
  rw [h]
  obtain ⟨v, ⟨s⟩⟩ := ci
  cases s
  · rfl
  · simp only [RefCell.try_borrow_mut, Cell.get, Cell.set, Cell.replace]
    rw [List.getElem?_set_self (by simpa using hi)]
  · rfl

/-- Witness for the amended C6 on a one-cell heap with a fresh cell. -/
theorem c6_witness : RefCell.swap [RefCell.new (0 : Nat)] 0 0 = none :=
  c6_self_swap_panics Nat [RefCell.new 0] 0 (RefCell.new 0) rfl

/-- C7: after swapping two distinct `ValueCell`s holding `a` and `b`,
the first holds `b` and the second holds `a`; and when the two handles
are pointer-equal (same index), swap returns early and the heap is
unchanged. -/
theorem c7_cell_swap (α : Type) (store : List (Cell α)) (i j : Nat) (a b : α)
    (hij : i ≠ j)
    (ha : store[i]? = some (Cell.new a)) (hb : store[j]? = some (Cell.new b)) :
    (Cell.swap store i j)[i]? = some (Cell.new b) ∧
    (Cell.swap store i j)[j]? = some (Cell.new a) ∧
    Cell.swap store i i = store := by
  have hi : i < store.length := (List.getElem?_eq_some.mp ha).1
  unfold Cell.swap
  rw [if_neg hij, ha, hb, if_pos rfl]
  refine ⟨?_, ?_, rfl⟩
  · rw [List.getElem?_set_ne (Ne.symm hij), List.getElem?_set_self hi]
  · rw [List.getElem?_set_self (by simpa using (List.getElem?_eq_some.mp hb).1)]

/-- Witness for C7: cells holding 5 and 10 swap to 10 and 5; self-swap
leaves the heap unchanged. -/
theorem c7_witness :
    (Cell.swap [Cell.new (5 : Nat), Cell.new 10] 0 1)[0]? = some (Cell.new 10) ∧
    (Cell.swap [Cell.new (5 : Nat), Cell.new 10] 0 1)[1]? = some (Cell.new 5) ∧
    Cell.swap [Cell.new (5 : Nat), Cell.new 10] 0 0
      = [Cell.new 5, Cell.new 10] :=
  ⟨(c7_cell_swap Nat [Cell.new 5, Cell.new 10] 0 1 5 10 (by decide) rfl rfl).1,
   (c7_cell_swap Nat [Cell.new 5, Cell.new 10] 0 1 5 10 (by decide) rfl rfl).2.1,
   (c7_cell_swap Nat [Cell.new 5, Cell.new 10] 0 1 5 10 (by decide) rfl rfl).2.2⟩

/-- C9: on an Idle cell, `replace_with f` takes the exclusive borrow
for the whole evaluation of `f`: the cell as observed during `f` has
state `Exclusive`, so any call by `f` back into the same cell — the
try variants return an error, the panicking variants panic — fails per
the state machine; the call returns the old value and the cell ends
with the new payload and state Idle. -/
theorem c9_replace_with_holds_exclusive (α : Type) (c : RefCell α)
    (f : RefCell α → α) (h : c.state.get = Borrow.UnShared) :
    c.replace_with f =
      (PanicOr.ok c.value,
        { c with value := f { c with state := c.state.set Borrow.Exclusive },
                 state := (c.state.set Borrow.Exclusive).set Borrow.UnShared }) ∧
    ({ c with state := c.state.set Borrow.Exclusive } : RefCell α).state.get
      = Borrow.Exclusive ∧
    (({ c with state := c.state.set Borrow.Exclusive } : RefCell α).try_borrow).1
      = Except.error BorrowErrValue.BorrowError ∧
    (({ c with state := c.state.set Borrow.Exclusive } : RefCell α).try_borrow_mut).1
      = Except.error BorrowErrValue.BorrowError ∧
    (({ c with state := c.state.set Borrow.Exclusive } : RefCell α).borrow).1
      = PanicOr.panic "already mutably borrowed" ∧
    (({ c with state := c.state.set Borrow.Exclusive } : RefCell α).borrow_mut).1
      = PanicOr.panic "already borrowed" := by
  obtain ⟨v, ⟨s⟩⟩ := c
  simp only [Cell.get] at h
  subst h
  simp [RefCell.replace_with, RefCell.try_borrow, RefCell.try_borrow_mut,
    RefCell.borrow, RefCell.borrow_mut, RefMut.drop, Cell.get, Cell.set,
    Cell.replace, BorrowErrValue.display]

/-- Witness for C9: replace_with on a fresh cell holding 5 with the
successor function returns the old 5, stores 6, ends Idle; and the cell
as observed during the closure refuses a shared borrow. -/
theorem c9_witness :
    (RefCell.new (5 : Nat)).replace_with (fun cm => cm.value + 1)
      = (PanicOr.ok 5, ⟨6, Cell.new Borrow.UnShared⟩) ∧
    ((⟨5, Cell.new Borrow.Exclusive⟩ : RefCell Nat).try_borrow).1
      = Except.error BorrowErrValue.BorrowError :=
  ⟨(c9_replace_with_holds_exclusive Nat (RefCell.new 5)
      (fun cm => cm.value + 1) rfl).1,
   (c9_replace_with_holds_exclusive Nat (RefCell.new 5)
      (fun cm => cm.value + 1) rfl).2.2.1⟩

end SmartPtr
